import Mathlib

/-!
Verification of the ExtraBeam backend against its specification.

The definitions below are a shallow embedding of the TypeScript services:
  - subscription.service.ts (SubscriptionService)
  - common/auth/access.service.ts (AccessService)
  - entreprises/unavailabilities/unavailabilities.service.ts
  - entreprises/slots/slots.service.ts (SlotsService)
  - factures/factures.service.ts (FacturesService)
  - payments/payments.service.ts (PaymentsService)

Modelling conventions, used consistently:
  - Nullable SQL columns and possibly-undefined JS values are `Option`.
  - A stored date string is a `DateVal := Option Int`: `some t` means the
    string parses (`new Date(s).getTime()` is the finite epoch value `t`,
    in milliseconds), `none` means the string parses to `NaN`.
  - Calendar dates handled by `expandRecurrences` are integers counting
    days since 1970-01-01 (UTC); an ISO `YYYY-MM-DD` string is identified
    with its day number, so string equality and `Date` comparison both
    become integer equality and order.
  - JavaScript truthiness tests on nullable strings and numbers are the
    explicit `jsTruthyStr` / `jsTruthyNat` functions (`""` and `0` are
    falsy).
  - Thrown Nest HTTP exceptions are the `HttpError` inductive; `async`
    methods become functions into `Except HttpError _`.  A non-HTTP error
    escaping a handler (e.g. a Stripe SDK failure) is rendered by the Nest
    runtime as a 500 response, and is modelled as `HttpError.internalError`.
  - The Supabase database is passed and returned explicitly; a `.update`
    failure is modelled by the `dbUpdateFails` flag of the ambient `Env`.
-/

namespace ExtraBeam

/-- Nest HTTP exception classes used by the services. -/
inductive HttpError where
  | unauthorized
  | forbidden
  | notFound
  | badRequest
  | internalError
deriving Repr, DecidableEq

/-- The HTTP status code each exception class maps to. -/
def HttpError.statusCode : HttpError → Nat
  | .unauthorized => 401
  | .forbidden => 403
  | .notFound => 404
  | .badRequest => 400
  | .internalError => 500

/-- A stored date string: `some t` iff it parses to the finite epoch value
`t` (milliseconds), `none` iff it parses to `NaN`. -/
abbrev DateVal := Option Int

/-- JavaScript truthiness of a nullable string: `null`/`undefined` and `""`
are falsy. -/
def jsTruthyStr : Option String → Bool
  | none => false
  | some s => !(s == "")

/-- JavaScript truthiness of a nullable number: `null`/`undefined` and `0`
are falsy. -/
def jsTruthyNat : Option Nat → Bool
  | none => false
  | some n => !(n == 0)

/-- The JavaScript nullish-coalescing operator `a ?? b` on options. -/
def jsNullish {α : Type} (a b : Option α) : Option α :=
  match a with
  | some x => some x
  | none => b

/-- Parse a digit string left to right. -/
def parseNatAux : List Char → Nat → Option Nat
  | [], acc => some acc
  | c :: cs, acc =>
    if c.isDigit then parseNatAux cs (acc * 10 + (c.toNat - 48)) else none

/-- The JS coercion `Number(s)` restricted to its use on row ids: a
non-empty digit string yields the id, anything else yields `NaN` (`none`),
on which the keyed `entreprise` query matches nothing. -/
def parseId (s : String) : Option Nat :=
  match s.data with
  | [] => none
  | l => parseNatAux l 0

/-- A row of the `entreprise` table, restricted to the columns the verified
services read or write. -/
structure Entreprise where
  id : Nat
  user_id : String
  slug : Option String
  email : Option String
  stripe_customer_id : Option String
  stripe_subscription_id : Option String
  subscription_status : Option String
  subscription_plan : Option String
  subscription_period_end : Option DateVal
  referred_by : Option String
deriving Repr, DecidableEq

/-- An authenticated user as seen by the backend guards. -/
structure AuthUser where
  id : String
  role : Option String
  slug : Option String
deriving Repr, DecidableEq

/-- AccessService.canAccessEntreprise: admins always pass, otherwise the
caller must be the owning user of the company. -/
def canAccessEntreprise (user : Option AuthUser) (entreprise : Entreprise) : Bool :=
  match user with
  | none => false
  | some u =>
    if u.role == some "admin" then true
    else u.id == entreprise.user_id

/-- AccessService.assertActiveSubscription (access.service.ts lines 112-125),
with `now` the current epoch-millisecond clock.  Succeeds or throws a 403
ForbiddenException. -/
def assertActiveSubscription (entreprise : Entreprise) (now : Int) :
    Except HttpError Unit :=
  if !(["active", "trialing"].contains (entreprise.subscription_status.getD "")) then
    .error .forbidden
  else
    match entreprise.subscription_period_end with
    | some (some t) => if t < now then .error .forbidden else .ok ()
    | _ => .ok ()

/-- The closed status enum of SubscriptionStatusResponse. -/
def allowedStatuses : List String :=
  ["active", "trialing", "past_due", "canceled", "incomplete"]

/-- SubscriptionService.normalizeStatus (part_009 lines 86-102): keep a
stored status that belongs to the closed enum, default anything else
(including `null`) to `incomplete`. -/
def normalizeStatus (status : Option String) : String :=
  match status with
  | some s => if allowedStatuses.contains s then s else "incomplete"
  | none => "incomplete"

/-- The payload returned by SubscriptionService.getStatus to the frontend. -/
structure SubscriptionStatusResponse where
  status : String
  plan : Option String
  periodEnd : Option DateVal
  isTrial : Bool
  isActive : Bool
deriving Repr, DecidableEq

/-- The response computation of SubscriptionService.getStatus (part_009
lines 215-235), applied to the loaded company row; `now` is `Date.now()`.
The `Number.isFinite` guard corresponds to the `some (some t)` match: an
unparseable stored date (`some none`) is not treated as expired. -/
def getStatusResponse (entreprise : Entreprise) (now : Int) :
    SubscriptionStatusResponse :=
  let normalizedStatus := normalizeStatus entreprise.subscription_status
  let periodEnd := entreprise.subscription_period_end
  let isExpired : Bool :=
    match periodEnd with
    | some (some t) => t < now
    | _ => false
  let isTrial := normalizedStatus == "trialing"
  let isActiveStatus := normalizedStatus == "active" || normalizedStatus == "trialing"
  { status := normalizedStatus
    plan := entreprise.subscription_plan
    periodEnd := periodEnd
    isTrial := isTrial
    isActive := isActiveStatus && !isExpired }

/-- A Stripe subscription object, restricted to the fields the service
reads.  `customer` is the customer id (a string id, or the id of the
expanded object); `current_period_end` is in epoch seconds. -/
structure StripeSubscription where
  id : String
  status : Option String
  current_period_end : Option Int
  customer : Option String
  metadata_entreprise_id : Option String
  metadata_plan : Option String
  metadata_referral_code : Option String
  items_price_id : Option String
deriving Repr, DecidableEq

/-- The external world of the subscription service: the Stripe API and the
environment variables, plus whether the pending `entreprise` update fails.
`retrieveSubscription` models `stripe.subscriptions.retrieve`;
`newCustomerId` is the id Stripe would assign on `customers.create`. -/
structure Env where
  retrieveSubscription : String → Except Unit StripeSubscription
  priceMonthly : Option String
  priceAnnual : Option String
  newCustomerId : String
  dbUpdateFails : Bool

/-- A Stripe Checkout session as received by the webhook.  `subscription`
is `some id` when the field is a string id; the expanded-object and null
cases are both `none` (they take the same warn-and-return path). -/
structure CheckoutSession where
  mode : String
  subscription : Option String
  metadata_entreprise_id : Option String
  metadata_plan : Option String
  metadata_referral_code : Option String
deriving Repr, DecidableEq

/-- A Stripe invoice, restricted to its subscription id (string id or the
id of the expanded object). -/
structure StripeInvoice where
  subscription : Option String
deriving Repr, DecidableEq

/-- The `entreprise` table. -/
abbrev Db := List Entreprise

/-- Lookup used by `.eq('id', n).maybeSingle()` on `entreprise`. -/
def findEntrepriseById (db : Db) (n : Nat) : Option Entreprise :=
  db.find? (fun e => e.id == n)

/-- Lookup used by `.eq('stripe_customer_id', cid).maybeSingle()`. -/
def findEntrepriseByCustomer (db : Db) (cid : String) : Option Entreprise :=
  db.find? (fun e => e.stripe_customer_id == some cid)

/-- The `subscription_period_end` value written by
updateEntrepriseOnSubscription: `current_period_end` (seconds, `0` falsy)
becomes the ISO string of `current_period_end * 1000`, else null.  The
written string always parses back to a finite date. -/
def periodEndOf (sub : StripeSubscription) : Option DateVal :=
  match sub.current_period_end with
  | some t => if t == 0 then none else some (some (t * 1000))
  | none => none

/-- The SQL `UPDATE entreprise SET ...` of
SubscriptionService.updateEntrepriseOnSubscription (part_009 lines
490-529), applied to one row.  `entreprise` is the row the service read
beforehand; `row` is the stored row the update hits.  A column whose
payload value is `undefined` (the `stripe_customer_id ?? undefined` and
the absent `referred_by` cases) is left unchanged. -/
def applySubscriptionUpdate (entreprise : Entreprise) (sub : StripeSubscription)
    (plan : Option String) (referralCode : Option String) (row : Entreprise) :
    Entreprise :=
  { row with
    stripe_subscription_id := some sub.id
    stripe_customer_id :=
      match jsNullish entreprise.stripe_customer_id sub.customer with
      | some c => some c
      | none => row.stripe_customer_id
    subscription_status := sub.status
    subscription_period_end := periodEndOf sub
    subscription_plan := jsNullish plan entreprise.subscription_plan
    referred_by :=
      if jsTruthyStr referralCode && !(jsTruthyStr entreprise.referred_by) then
        referralCode
      else row.referred_by }

/-- SubscriptionService.updateEntrepriseOnSubscription (part_009 lines
490-529): run the update on every row with the read row's id, or throw a
500 when the database update errors. -/
def updateEntrepriseOnSubscription (env : Env) (db : Db) (entreprise : Entreprise)
    (sub : StripeSubscription) (plan : Option String)
    (referralCode : Option String) : Except HttpError Db :=
  if env.dbUpdateFails then .error .internalError
  else
    .ok (db.map (fun row =>
      if row.id == entreprise.id then
        applySubscriptionUpdate entreprise sub plan referralCode row
      else row))

/-- SubscriptionService.handleCheckoutCompleted (part_009 lines 304-350).
Missing metadata, a missing subscription id and an unknown company all
log a warning and return; a Stripe retrieve failure escapes as a 500. -/
def handleCheckoutCompleted (env : Env) (db : Db) (session : CheckoutSession) :
    Except HttpError Db :=
  if !(session.mode == "subscription") then .ok db
  else if !(jsTruthyStr session.metadata_entreprise_id) then .ok db
  else
    match session.subscription with
    | none => .ok db
    | some sid =>
      if sid == "" then .ok db
      else
        match env.retrieveSubscription sid with
        | .error _ => .error .internalError
        | .ok sub =>
          match (parseId (session.metadata_entreprise_id.getD "")) with
          | none => .ok db
          | some n =>
            match findEntrepriseById db n with
            | none => .ok db
            | some entreprise =>
              updateEntrepriseOnSubscription env db entreprise sub
                session.metadata_plan session.metadata_referral_code

/-- SubscriptionService.inferPlanFromSubscription (part_009 lines 466-485). -/
def inferPlanFromSubscription (env : Env) (sub : StripeSubscription) :
    Option String :=
  if jsTruthyStr sub.metadata_plan
      && ["monthly", "annual"].contains (sub.metadata_plan.getD "") then
    sub.metadata_plan
  else
    match sub.items_price_id with
    | some priceId =>
      if !(priceId == "") then
        if env.priceMonthly == some priceId then some "monthly"
        else if env.priceAnnual == some priceId then some "annual"
        else none
      else none
    | none => none

/-- SubscriptionService.resolveEntrepriseFromSubscription (part_009 lines
416-436): resolve by metadata company id first, then by customer id. -/
def resolveEntrepriseFromSubscription (db : Db) (sub : StripeSubscription) :
    Option Entreprise :=
  let byId :=
    if jsTruthyStr sub.metadata_entreprise_id then
      match (parseId (sub.metadata_entreprise_id.getD "")) with
      | some n => findEntrepriseById db n
      | none => none
    else none
  match byId with
  | some e => some e
  | none =>
    match sub.customer with
    | some cid => if !(cid == "") then findEntrepriseByCustomer db cid else none
    | none => none

/-- SubscriptionService.handleSubscriptionEvent (part_009 lines 355-381). -/
def handleSubscriptionEvent (env : Env) (db : Db) (sub : StripeSubscription) :
    Except HttpError Db :=
  match resolveEntrepriseFromSubscription db sub with
  | none => .ok db
  | some entreprise =>
    updateEntrepriseOnSubscription env db entreprise sub
      (inferPlanFromSubscription env sub) sub.metadata_referral_code

/-- SubscriptionService.handleInvoiceEvent (part_009 lines 386-411): the
try/catch swallows both a failing Stripe retrieve and any error thrown by
handleSubscriptionEvent. -/
def handleInvoiceEvent (env : Env) (db : Db) (invoice : StripeInvoice)
    (_succeeded : Bool) : Except HttpError Db :=
  match invoice.subscription with
  | none => .ok db
  | some sid =>
    if sid == "" then .ok db
    else
      match env.retrieveSubscription sid with
      | .error _ => .ok db
      | .ok sub =>
        match handleSubscriptionEvent env db sub with
        | .error _ => .ok db
        | .ok db' => .ok db'

/-- The Stripe events SubscriptionService.handleWebhook dispatches on. -/
inductive StripeEvent where
  | checkoutSessionCompleted (session : CheckoutSession)
  | customerSubscriptionCreated (sub : StripeSubscription)
  | customerSubscriptionUpdated (sub : StripeSubscription)
  | customerSubscriptionDeleted (sub : StripeSubscription)
  | invoicePaymentSucceeded (invoice : StripeInvoice)
  | invoicePaymentFailed (invoice : StripeInvoice)
  | otherEvent
deriving Repr, DecidableEq

/-- A webhook delivery after transport: the signature header (empty when
missing) and the outcome of `stripe.webhooks.constructEvent`, which is
`some event` exactly when the signature verifies against the raw body. -/
structure WebhookRequest where
  signature : String
  constructedEvent : Option StripeEvent
deriving Repr, DecidableEq

/-- The `{ received: true }` acknowledgement body. -/
structure WebhookResponse where
  received : Bool
deriving Repr, DecidableEq

/-- The `switch (event.type)` of SubscriptionService.handleWebhook
(part_009 lines 270-296): the unhandled default leaves the table alone. -/
def dispatchEvent (env : Env) (db : Db) : StripeEvent → Except HttpError Db
  | .checkoutSessionCompleted s => handleCheckoutCompleted env db s
  | .customerSubscriptionCreated sub => handleSubscriptionEvent env db sub
  | .customerSubscriptionUpdated sub => handleSubscriptionEvent env db sub
  | .customerSubscriptionDeleted sub => handleSubscriptionEvent env db sub
  | .invoicePaymentSucceeded invoice => handleInvoiceEvent env db invoice true
  | .invoicePaymentFailed invoice => handleInvoiceEvent env db invoice false
  | .otherEvent => .ok db

/-- SubscriptionService.handleWebhook (part_009 lines 241-299). -/
def handleWebhook (env : Env) (db : Db) (req : WebhookRequest) :
    Except HttpError (WebhookResponse × Db) :=
  if req.signature == "" then .error .unauthorized
  else
    match req.constructedEvent with
    | none => .error .unauthorized
    | some event =>
      match dispatchEvent env db event with
      | .error e => .error e
      | .ok db' => .ok (⟨true⟩, db')

/-- SubscriptionService.getOrCreateStripeCustomer (part_009 lines 107-136).
The returned `Bool` records whether `stripe.customers.create` was called. -/
def getOrCreateStripeCustomer (env : Env) (db : Db) (entreprise : Entreprise) :
    Except HttpError (String × Db × Bool) :=
  if jsTruthyStr entreprise.stripe_customer_id then
    .ok (entreprise.stripe_customer_id.getD "", db, false)
  else
    let customerId := env.newCustomerId
    if env.dbUpdateFails then .error .internalError
    else
      .ok (customerId,
        db.map (fun row =>
          if row.id == entreprise.id then
            { row with stripe_customer_id := some customerId }
          else row),
        true)

/-- The UTC day of week of a day number (1970-01-01 is day 0, a Thursday,
`getUTCDay() = 4`). -/
def dayOfWeek (d : Int) : Int := (d + 4) % 7

/-- The UTC day of month (`getUTCDate()`) of a day number, by the standard
civil-from-days computation.  `Int.fdiv` is floor division, matching the
branch on the sign of the shifted day count. -/
def dayOfMonth (z : Int) : Int :=
  let z' := z + 719468
  let era := z'.fdiv 146097
  let doe := z' - era * 146097
  let yoe := (doe - doe.fdiv 1460 + doe.fdiv 36524 - doe.fdiv 146096).fdiv 365
  let doy := doe - (365 * yoe + yoe.fdiv 4 - yoe.fdiv 100)
  let mp := (5 * doy + 2).fdiv 153
  doy - (153 * mp + 2).fdiv 5 + 1

/-- A row of the `unavailabilities` table; dates are day numbers. -/
structure Unavailability where
  id : Nat
  entreprise_id : Nat
  title : String
  start_time : String
  end_time : String
  recurrence_type : String
  start_date : Int
  recurrence_end : Option Int
  weekday : Int
  exceptions : List Int
deriving Repr, DecidableEq

/-- The day number of `new Date('2100-01-01')`, the default recurrence end. -/
def farFuture : Int := 47482

/-- The `switch (recurrence)` of UnavailabilitiesService.expandRecurrences
(lines 73-93) deciding whether `cursor` is an occurrence of `item`. -/
def validOccurrence (item : Unavailability) (endRec cursor : Int) : Bool :=
  if item.recurrence_type == "none" then cursor == item.start_date
  else if item.recurrence_type == "daily" then
    decide (item.start_date ≤ cursor) && decide (cursor ≤ endRec)
  else if item.recurrence_type == "weekly" then
    decide (item.start_date ≤ cursor) && decide (cursor ≤ endRec)
      && dayOfWeek cursor == item.weekday
  else if item.recurrence_type == "monthly" then
    decide (item.start_date ≤ cursor) && decide (cursor ≤ endRec)
      && dayOfMonth cursor == dayOfMonth item.start_date
  else false

/-- The per-item loop of UnavailabilitiesService.expandRecurrences (lines
55-104): walk the window day by day, keep valid occurrences that are not
in the exceptions list, re-dating the item to the occurrence day. -/
def expandItem (item : Unavailability) (fromDay toDay : Int) : List Unavailability :=
  if (item.recurrence_end).getD farFuture < fromDay ∨ item.start_date > toDay then []
  else
    (List.range (toDay + 1 - fromDay).toNat).filterMap (fun (i : Nat) =>
      if validOccurrence item ((item.recurrence_end).getD farFuture) (fromDay + (i : Int))
          && !(item.exceptions.contains (fromDay + (i : Int))) then
        some { item with start_date := fromDay + (i : Int) }
      else none)

/-- UnavailabilitiesService.expandRecurrences (lines 46-107). -/
def expandRecurrences (items : List Unavailability) (fromDay toDay : Int) :
    List Unavailability :=
  items.flatMap (fun item => expandItem item fromDay toDay)

/-- A row of the `missions` table, restricted to the verified columns. -/
structure Mission where
  id : Nat
  entreprise_id : Nat
  status : String
deriving Repr, DecidableEq

/-- A row of the `slots` table (the `end` column is `end_`). -/
structure Slot where
  id : Nat
  entreprise_id : Nat
  mission_id : Option Nat
  start : String
  end_ : String
  title : Option String
deriving Repr, DecidableEq

/-- The tables SlotsService touches. -/
structure SlotsDb where
  missions : List Mission
  slots : List Slot
deriving Repr, DecidableEq

/-- The POST body of SlotsService.createSlot. -/
structure SlotBody where
  start : String
  end_ : String
  title : Option String
  mission_id : Option Nat
deriving Repr, DecidableEq

/-- A partial slot update (PUT body): `some v` sets the column to `v`,
`none` leaves it untouched.  Restricted to the verified columns. -/
structure SlotUpdate where
  start : Option String
  end_ : Option String
  title : Option (Option String)
  mission_id : Option (Option Nat)
deriving Repr, DecidableEq

/-- Apply a partial slot update to a stored row. -/
def applySlotUpdate (u : SlotUpdate) (s : Slot) : Slot :=
  { s with
    start := u.start.getD s.start
    end_ := u.end_.getD s.end_
    title := u.title.getD s.title
    mission_id := u.mission_id.getD s.mission_id }

/-- The `mission_id` validation block of SlotsService.createSlot (lines
146-162): a provided (truthy) `mission_id` must name an existing mission —
a missing row makes `.single()` error (500) — belonging to the company
(else a 400). -/
def checkSlotMission (st : SlotsDb) (entreprise : Entreprise)
    (mission_id : Option Nat) : Except HttpError (Option Nat) :=
  if jsTruthyNat mission_id then
    match st.missions.find? (fun m => m.id == mission_id.getD 0) with
    | none => .error .internalError
    | some mission =>
      if !(mission.entreprise_id == entreprise.id) then .error .badRequest
      else .ok (some mission.id)
  else .ok none

/-- SlotsService.createSlot (slots.service.ts lines 124-179), applied to
the resolved company; `newId` is the id the insert assigns. -/
def createSlot (env : Env) (entreprise : Entreprise) (user : AuthUser)
    (body : SlotBody) (st : SlotsDb) (now : Int) (newId : Nat) :
    Except HttpError (SlotsDb × Slot) :=
  if !(canAccessEntreprise (some user) entreprise) then .error .forbidden
  else
    match assertActiveSubscription entreprise now with
    | .error e => .error e
    | .ok _ =>
      if body.start == "" || body.end_ == "" then .error .badRequest
      else
        match checkSlotMission st entreprise body.mission_id with
        | .error e => .error e
        | .ok missionId =>
          if env.dbUpdateFails then .error .internalError
          else
            .ok ({ st with slots := st.slots ++
                    [{ id := newId
                       entreprise_id := entreprise.id
                       mission_id := missionId
                       start := body.start
                       end_ := body.end_
                       title := body.title }] },
                 { id := newId
                   entreprise_id := entreprise.id
                   mission_id := missionId
                   start := body.start
                   end_ := body.end_
                   title := body.title })

/-- SlotsService.updateSlot (slots.service.ts lines 184-210): the update
is applied, scoped to the company, with no check on `mission_id`; zero
matched rows make `.single()` error (500). -/
def updateSlot (env : Env) (entreprise : Entreprise) (user : AuthUser)
    (id : Nat) (updates : SlotUpdate) (st : SlotsDb) (now : Int) :
    Except HttpError (SlotsDb × Slot) :=
  if !(canAccessEntreprise (some user) entreprise) then .error .forbidden
  else
    match assertActiveSubscription entreprise now with
    | .error e => .error e
    | .ok _ =>
      if env.dbUpdateFails then .error .internalError
      else
        match st.slots.find? (fun s => s.id == id && s.entreprise_id == entreprise.id) with
        | none => .error .internalError
        | some s =>
          .ok ({ st with
                  slots := st.slots.map (fun r =>
                    if r.id == id && r.entreprise_id == entreprise.id then
                      applySlotUpdate updates r
                    else r) },
                applySlotUpdate updates s)

/-- A fetched slot row joined with its mission's status
(`select('*, missions:mission_id(status)')`): `missions = none` when there
is no joined mission, `some st` when the joined object carries status `st`. -/
structure SlotJoinRow where
  id : Nat
  entreprise_id : Nat
  mission_id : Option Nat
  missions : Option (Option String)
deriving Repr, DecidableEq

/-- The JS expression `s.missions?.status ?? ''`. -/
def joinedMissionStatus (s : SlotJoinRow) : String :=
  match s.missions with
  | some (some st) => st
  | _ => ""

/-- The public filter of SlotsService.listSlots (lines 100-104). -/
def publicSlotVisible (s : SlotJoinRow) : Bool :=
  !(jsTruthyNat s.mission_id)
    || ["validated", "paid", "completed"].contains (joinedMissionStatus s)

/-- The owner/admin `status_slot` flag of SlotsService.listSlots
(lines 107-113). -/
def statusSlotFlag (s : SlotJoinRow) : String :=
  if jsTruthyNat s.mission_id
      && ["proposed", "refused"].contains (joinedMissionStatus s) then
    "pending"
  else "active"

/-- The access-dependent tail of SlotsService.listSlots (lines 93-118),
applied to the resolved company and the rows the query returned; each
returned row is paired with its optional `status_slot` flag.  The source's
`user ? canAccessEntreprise(user, entreprise) : false` collapses to
`canAccessEntreprise user entreprise`, which is false on a null user. -/
def listSlots (user : Option AuthUser) (entreprise : Entreprise)
    (rows : List SlotJoinRow) (now : Int) :
    Except HttpError (List (SlotJoinRow × Option String)) :=
  if !(canAccessEntreprise user entreprise) then
    .ok ((rows.filter publicSlotVisible).map (fun s => (s, none)))
  else
    match assertActiveSubscription entreprise now with
    | .error e => .error e
    | .ok _ => .ok (rows.map (fun s => (s, some (statusSlotFlag s))))

/-- A row of the `factures` table, restricted to the verified columns. -/
structure Facture where
  id : Nat
  entreprise_id : Nat
  mission_id : Option Nat
  status : Option String
deriving Repr, DecidableEq

/-- The tables FacturesService.updateFacture and the payments webhook
touch. -/
structure FacturesDb where
  factures : List Facture
  missions : List Mission
deriving Repr, DecidableEq

/-- The FactureUpdateDto payload, restricted to the verified fields:
`mission_id` is `none` when absent or null (both are written as null),
`status` is `none` when the field is absent from the payload. -/
structure FactureUpdateInput where
  mission_id : Option Nat
  status : Option String
deriving Repr, DecidableEq

/-- The `UPDATE factures SET ...` payload of FacturesService.updateFacture
applied to a row: `mission_id` is always written (null when absent),
`status` only when present. -/
def applyFactureUpdate (input : FactureUpdateInput) (f : Facture) : Facture :=
  { f with
    mission_id := input.mission_id
    status :=
      match input.status with
      | some s => some s
      | none => f.status }

/-- FacturesService.updateFacture (part_006 lines 367-419).  After the
update, a `paid` status propagates to `mission_id ?? facture.mission_id`
when `facture.mission_id ?? mission_id` is truthy; the result of the
mission update is not checked by the code.  A facture-update database
error is modelled as the 500 case (the 23505 duplicate-number 400 is not
reachable from the verified fields). -/
def updateFacture (env : Env) (user : Option AuthUser) (entreprises : Db)
    (st : FacturesDb) (id : Nat) (input : FactureUpdateInput) (now : Int) :
    Except HttpError FacturesDb :=
  match user with
  | none => .error .unauthorized
  | some u =>
    match st.factures.find? (fun f => f.id == id) with
    | none => .error .notFound
    | some facture =>
      if !(["freelance", "entreprise", "admin"].contains (u.role.getD "")) then
        .error .forbidden
      else
        match findEntrepriseById entreprises facture.entreprise_id with
        | none => .error .notFound
        | some entreprise =>
          if !(canAccessEntreprise (some u) entreprise) then .error .forbidden
          else
            match assertActiveSubscription entreprise now with
            | .error e => .error e
            | .ok _ =>
              if env.dbUpdateFails then .error .internalError
              else
                .ok { factures := st.factures.map (fun f =>
                        if f.id == id && f.entreprise_id == facture.entreprise_id then
                          applyFactureUpdate input f
                        else f),
                      missions :=
                        if input.status == some "paid"
                            && jsTruthyNat (jsNullish facture.mission_id input.mission_id) then
                          st.missions.map (fun m =>
                            if m.id == (jsNullish input.mission_id facture.mission_id).getD 0 then
                              { m with status := "paid" }
                            else m)
                        else st.missions }

/-- The facture branch of PaymentsService.handleWebhook for a verified
`checkout.session.completed` event carrying a truthy `facture_id`
(payments.service.ts lines 520-561): mark the facture paid and, when it
links a mission, mark that mission paid (both update results unchecked
except the initial fetch). -/
def paymentsCheckoutFactureBranch (st : FacturesDb) (factureId : Nat) :
    Except HttpError FacturesDb :=
  match st.factures.find? (fun f => f.id == factureId) with
  | none => .error .notFound
  | some data =>
    .ok { factures := st.factures.map (fun f =>
            if f.id == factureId then { f with status := some "paid" } else f),
          missions :=
            if jsTruthyNat data.mission_id then
              st.missions.map (fun m =>
                if m.id == data.mission_id.getD 0 then { m with status := "paid" }
                else m)
            else st.missions }

/-! ## Theorems -/

/-- C1: for every company record whose stored `subscription_period_end` is
null or a parseable date, `getStatus` returns `isActive = true` iff the
stored `subscription_status`, normalized into the closed enum (unknown and
null values mapping to `incomplete`), is `active` or `trialing`, and the
period end is null or not in the past of `now`. -/
theorem c1_getStatus_isActive (entreprise : Entreprise) (pe : Option Int) (now : Int)
    (hpe : entreprise.subscription_period_end = pe.map some) :
    ((getStatusResponse entreprise now).isActive = true ↔
      ((normalizeStatus entreprise.subscription_status = "active" ∨
        normalizeStatus entreprise.subscription_status = "trialing") ∧
       (pe = none ∨ ∃ t, pe = some t ∧ now ≤ t))) := by
  cases pe with
  | none =>
    simp only [Option.map_none'] at hpe
    simp [getStatusResponse, hpe, Int.not_lt, or_comm]
  | some t =>
    simp only [Option.map_some'] at hpe
    simp [getStatusResponse, hpe, Int.not_lt, or_comm]

/-- Witness for C1 at a concrete record: an `active` status with a period
end strictly in the future is reported active. -/
theorem c1_getStatus_isActive_witness :
    (getStatusResponse
      { id := 1, user_id := "u1", slug := some "acme", email := some "a@b.c",
        stripe_customer_id := none, stripe_subscription_id := none,
        subscription_status := some "active", subscription_plan := some "monthly",
        subscription_period_end := some (some 1000), referred_by := none } 500).isActive
      = true := by
  have h := c1_getStatus_isActive
    { id := 1, user_id := "u1", slug := some "acme", email := some "a@b.c",
      stripe_customer_id := none, stripe_subscription_id := none,
      subscription_status := some "active", subscription_plan := some "monthly",
      subscription_period_end := some (some 1000), referred_by := none }
    (some 1000) 500 rfl
  exact h.mpr ⟨Or.inl (by decide), Or.inr ⟨1000, rfl, by decide⟩⟩

/-- assertActiveSubscription either succeeds or throws the 403
ForbiddenException; no other outcome is possible. -/
theorem assertActive_ok_or_forbidden (e : Entreprise) (now : Int) :
    assertActiveSubscription e now = .ok () ∨
    assertActiveSubscription e now = .error .forbidden := by
  unfold assertActiveSubscription
  split
  · exact Or.inr rfl
  · split
    · split
      · exact Or.inr rfl
      · exact Or.inl rfl
    · exact Or.inl rfl

/-- C9: for every company record whose stored `subscription_period_end` is
null or a parseable date, `assertActiveSubscription` succeeds iff the
stored status is literally `active` or `trialing` and the period end is
absent or not in the past; in every other case it throws the 403
ForbiddenException. -/
theorem c9_assertActiveSubscription (entreprise : Entreprise) (pe : Option Int) (now : Int)
    (hpe : entreprise.subscription_period_end = pe.map some) :
    ((assertActiveSubscription entreprise now = .ok () ↔
      ((entreprise.subscription_status = some "active" ∨
        entreprise.subscription_status = some "trialing") ∧
       (pe = none ∨ ∃ t, pe = some t ∧ now ≤ t))) ∧
     (assertActiveSubscription entreprise now ≠ .ok () →
      assertActiveSubscription entreprise now = .error .forbidden)) := by
  constructor
  · cases pe with
    | none =>
      have hpe' : entreprise.subscription_period_end = none := by simpa using hpe
      cases hs : entreprise.subscription_status with
      | none => simp [assertActiveSubscription, hpe', hs]
      | some s =>
        simp [assertActiveSubscription, hpe', hs]
        tauto
    | some t =>
      have hpe' : entreprise.subscription_period_end = some (some t) := by
        simpa using hpe
      cases hs : entreprise.subscription_status with
      | none => simp [assertActiveSubscription, hpe', hs]
      | some s =>
        by_cases hlt : t < now
        · simp [assertActiveSubscription, hpe', hs, hlt]
        · simp [assertActiveSubscription, hpe', hs, hlt, Int.not_lt.mp hlt]
          tauto
  · intro hne
    rcases assertActive_ok_or_forbidden entreprise now with h | h
    · exact absurd h hne
    · exact h

/-- Witness for C9 at a concrete record: a `canceled` subscription is
rejected, and the rejection is the 403 ForbiddenException. -/
theorem c9_assertActiveSubscription_witness :
    assertActiveSubscription
      { id := 2, user_id := "u2", slug := none, email := none,
        stripe_customer_id := none, stripe_subscription_id := none,
        subscription_status := some "canceled", subscription_plan := none,
        subscription_period_end := none, referred_by := none } 0
      = .error .forbidden := by
  have h := c9_assertActiveSubscription
    { id := 2, user_id := "u2", slug := none, email := none,
      stripe_customer_id := none, stripe_subscription_id := none,
      subscription_status := some "canceled", subscription_plan := none,
      subscription_period_end := none, referred_by := none }
    none 0 rfl
  exact h.2 (by intro hok; have := h.1.mp hok; simp at this)

/-- updateEntrepriseOnSubscription either returns the updated table or
throws the 500 InternalServerErrorException. -/
theorem updateEntreprise_ok_or_500 (env : Env) (db : Db) (e : Entreprise)
    (sub : StripeSubscription) (plan referralCode : Option String) :
    (∃ db', updateEntrepriseOnSubscription env db e sub plan referralCode = .ok db') ∨
    updateEntrepriseOnSubscription env db e sub plan referralCode
      = .error .internalError := by
  unfold updateEntrepriseOnSubscription
  by_cases h : env.dbUpdateFails <;> simp [h]

/-- handleCheckoutCompleted either returns a table or throws a 500. -/
theorem handleCheckoutCompleted_ok_or_500 (env : Env) (db : Db)
    (session : CheckoutSession) :
    (∃ db', handleCheckoutCompleted env db session = .ok db') ∨
    handleCheckoutCompleted env db session = .error .internalError := by
  unfold handleCheckoutCompleted
  repeat' split
  all_goals first
    | exact Or.inl ⟨_, rfl⟩
    | exact Or.inr rfl
    | exact updateEntreprise_ok_or_500 env db _ _ _ _

/-- handleSubscriptionEvent either returns a table or throws a 500. -/
theorem handleSubscriptionEvent_ok_or_500 (env : Env) (db : Db)
    (sub : StripeSubscription) :
    (∃ db', handleSubscriptionEvent env db sub = .ok db') ∨
    handleSubscriptionEvent env db sub = .error .internalError := by
  unfold handleSubscriptionEvent
  split
  · exact Or.inl ⟨_, rfl⟩
  · exact updateEntreprise_ok_or_500 env db _ _ _ _

/-- handleInvoiceEvent never throws: its try/catch swallows every error. -/
theorem handleInvoiceEvent_ok (env : Env) (db : Db) (invoice : StripeInvoice)
    (succeeded : Bool) :
    ∃ db', handleInvoiceEvent env db invoice succeeded = .ok db' := by
  unfold handleInvoiceEvent
  repeat' split
  all_goals exact ⟨_, rfl⟩

/-- C2: webhook processing of any delivery terminates in `{received: true}`
or one of the mapped HTTP exceptions with status 401, 404 or 500, never in
any other unhandled exception; and a delivery whose signature is missing
or fails verification is rejected with the 401 UnauthorizedException. -/
theorem c2_handleWebhook_outcomes (env : Env) (db : Db) (req : WebhookRequest) :
    ((∃ db', handleWebhook env db req = .ok (⟨true⟩, db')) ∨
     (∃ e, handleWebhook env db req = .error e ∧
        e.statusCode ∈ ([401, 404, 500] : List Nat))) ∧
    ((req.signature = "" ∨ req.constructedEvent = none) →
      handleWebhook env db req = .error .unauthorized) := by
  have hdisp : ∀ event : StripeEvent,
      (∃ db', dispatchEvent env db event = .ok db') ∨
      dispatchEvent env db event = .error .internalError := by
    intro event
    cases event with
    | checkoutSessionCompleted s => exact handleCheckoutCompleted_ok_or_500 env db s
    | customerSubscriptionCreated sub => exact handleSubscriptionEvent_ok_or_500 env db sub
    | customerSubscriptionUpdated sub => exact handleSubscriptionEvent_ok_or_500 env db sub
    | customerSubscriptionDeleted sub => exact handleSubscriptionEvent_ok_or_500 env db sub
    | invoicePaymentSucceeded invoice => exact Or.inl (handleInvoiceEvent_ok env db invoice true)
    | invoicePaymentFailed invoice => exact Or.inl (handleInvoiceEvent_ok env db invoice false)
    | otherEvent => exact Or.inl ⟨db, rfl⟩
  constructor
  · unfold handleWebhook
    split
    · exact Or.inr ⟨.unauthorized, rfl, by decide⟩
    · split
      · exact Or.inr ⟨.unauthorized, rfl, by decide⟩
      · rename_i ev hev
        rcases hdisp ev with ⟨db', h⟩ | h
        · rw [h]; exact Or.inl ⟨db', rfl⟩
        · rw [h]; exact Or.inr ⟨.internalError, rfl, by decide⟩
  · intro hcond
    rcases hcond with h | h
    · simp [handleWebhook, h]
    · by_cases hsig : req.signature == "" <;> simp [handleWebhook, hsig, h]

/-- Witness for C2: a delivery with an empty signature header is rejected
with the 401 UnauthorizedException. -/
theorem c2_handleWebhook_outcomes_witness :
    handleWebhook
      { retrieveSubscription := fun _ => .error (), priceMonthly := none,
        priceAnnual := none, newCustomerId := "cus_1", dbUpdateFails := false }
      [] { signature := "", constructedEvent := none }
      = .error .unauthorized :=
  (c2_handleWebhook_outcomes
    { retrieveSubscription := fun _ => .error (), priceMonthly := none,
      priceAnnual := none, newCustomerId := "cus_1", dbUpdateFails := false }
    [] { signature := "", constructedEvent := none }).2 (Or.inl rfl)

/-- The row update leaves the primary key alone. -/
theorem applySubscriptionUpdate_id (e : Entreprise) (sub : StripeSubscription)
    (mp mrc : Option String) (r : Entreprise) :
    (applySubscriptionUpdate e sub mp mrc r).id = r.id := rfl

/-- The `stripe_customer_id ?? customerId ?? undefined` column applied to
the row it was computed from collapses to the plain nullish value. -/
theorem customer_write_self (a b : Option String) :
    (match jsNullish a b with
     | some c => some c
     | none => a) = jsNullish a b := by
  cases a <;> cases b <;> rfl

/-- Re-running the customer-column write on an already-written row changes
nothing. -/
theorem customer_write_stable (a b v : Option String) :
    (match jsNullish (jsNullish a b) b with
     | some c => some c
     | none => (match jsNullish a b with
                | some c => some c
                | none => v)) =
    (match jsNullish a b with
     | some c => some c
     | none => v) := by
  cases a <;> cases b <;> rfl

/-- The `plan ?? entreprise.subscription_plan` write is idempotent. -/
theorem plan_write_stable (mp p : Option String) :
    jsNullish mp (jsNullish mp p) = jsNullish mp p := by
  cases mp <;> rfl

/-- After a first write, the guarded `referred_by` write never fires again. -/
theorem referral_guard_stable (mrc rb : Option String) :
    (jsTruthyStr mrc
      && !(jsTruthyStr (if jsTruthyStr mrc && !(jsTruthyStr rb) then mrc else rb)))
      = false := by
  by_cases h1 : jsTruthyStr mrc = true <;> by_cases h2 : jsTruthyStr rb = true <;>
    simp [h1, h2]

/-- Re-applying the subscription update, with the read row being the result
of the first update, fixes every written row. -/
theorem applySubscriptionUpdate_idem (e : Entreprise) (sub : StripeSubscription)
    (mp mrc : Option String) (r : Entreprise) :
    applySubscriptionUpdate (applySubscriptionUpdate e sub mp mrc e) sub mp mrc
      (applySubscriptionUpdate e sub mp mrc r)
      = applySubscriptionUpdate e sub mp mrc r := by
  cases r
  simp [applySubscriptionUpdate, customer_write_self, customer_write_stable,
    plan_write_stable, referral_guard_stable]
  intro h1 h2
  by_cases hrb : jsTruthyStr e.referred_by = true
  · rw [if_neg (fun hcon => by simp [hrb] at hcon)] at h2
    simp [hrb] at h2
  · rw [if_pos ⟨h1, by simpa using hrb⟩] at h2
    simp [h1] at h2

/-- Keyed lookup commutes with a row transformation that preserves ids. -/
theorem find?_map_id_preserving (f : Entreprise → Entreprise)
    (hf : ∀ r, (f r).id = r.id) (db : Db) (n : Nat) :
    (db.map f).find? (fun r => r.id == n) = (db.find? (fun r => r.id == n)).map f := by
  induction db with
  | nil => rfl
  | cons r tl ih =>
    by_cases h : (r.id == n) = true
    · have hfr : ((f r).id == n) = true := by rw [hf r]; exact h
      rw [List.map_cons,
        List.find?_cons_of_pos (p := fun x : Entreprise => x.id == n) _ hfr,
        List.find?_cons_of_pos (p := fun x : Entreprise => x.id == n) _ h]
      rfl
    · have hfr : ¬ ((f r).id == n) = true := by rw [hf r]; exact h
      rw [List.map_cons,
        List.find?_cons_of_neg (p := fun x : Entreprise => x.id == n) _ hfr,
        List.find?_cons_of_neg (p := fun x : Entreprise => x.id == n) _ h, ih]

/-- Writing the subscription columns a second time, from the row produced
by the first write, is a no-op on the whole table. -/
theorem subscription_update_round_trip (db : Db) (e : Entreprise)
    (sub : StripeSubscription) (mp mrc : Option String) :
    ((db.map (fun row =>
        if row.id == e.id then applySubscriptionUpdate e sub mp mrc row else row)).map
      (fun row =>
        if row.id == (applySubscriptionUpdate e sub mp mrc e).id then
          applySubscriptionUpdate (applySubscriptionUpdate e sub mp mrc e) sub mp mrc row
        else row))
    = db.map (fun row =>
        if row.id == e.id then applySubscriptionUpdate e sub mp mrc row else row) := by
  rw [List.map_map]
  congr 1
  funext r
  simp only [Function.comp_apply, applySubscriptionUpdate_id]
  by_cases h : (r.id == e.id) = true
  · rw [if_pos h, if_pos (by rw [applySubscriptionUpdate_id]; exact h)]
    exact applySubscriptionUpdate_idem e sub mp mrc r
  · rw [if_neg h, if_neg h]

/-- C3: re-processing the same `checkout.session.completed` event against
the state the first processing produced returns exactly that state again:
the handler overwrites the same derived fields, so redelivery is
idempotent (in particular `subscription_status`, `subscription_plan` and
`subscription_period_end` are unchanged by the second delivery). -/
theorem c3_checkout_redelivery_idempotent (env : Env) (db : Db)
    (session : CheckoutSession) (db1 : Db)
    (h : handleCheckoutCompleted env db session = .ok db1) :
    handleCheckoutCompleted env db1 session = .ok db1 := by
  unfold handleCheckoutCompleted at h ⊢
  by_cases h1 : (!(session.mode == "subscription")) = true
  · rw [if_pos h1]
  · rw [if_neg h1] at h ⊢
    by_cases h2 : (!(jsTruthyStr session.metadata_entreprise_id)) = true
    · rw [if_pos h2]
    · rw [if_neg h2] at h ⊢
      cases hsub : session.subscription with
      | none => rfl
      | some sid =>
        rw [hsub] at h
        dsimp only at h ⊢
        by_cases hsid : (sid == "") = true
        · rw [if_pos hsid]
        · rw [if_neg hsid] at h ⊢
          cases hret : env.retrieveSubscription sid with
          | error u => rw [hret] at h; simp at h
          | ok sub =>
            rw [hret] at h
            dsimp only at h ⊢
            cases hn : parseId (session.metadata_entreprise_id.getD "") with
            | none => rfl
            | some n =>
              rw [hn] at h
              dsimp only at h ⊢
              cases hfind : findEntrepriseById db n with
              | none =>
                rw [hfind] at h
                dsimp only at h
                injection h with hdb
                subst hdb
                rw [hfind]
              | some e =>
                rw [hfind] at h
                dsimp only at h
                unfold updateEntrepriseOnSubscription at h
                by_cases hfail : env.dbUpdateFails = true
                · rw [if_pos hfail] at h; simp at h
                · rw [if_neg hfail] at h
                  injection h with hdb
                  subst hdb
                  have hfind1 : findEntrepriseById
                      (db.map (fun row =>
                        if row.id == e.id then
                          applySubscriptionUpdate e sub session.metadata_plan
                            session.metadata_referral_code row
                        else row)) n
                      = some (applySubscriptionUpdate e sub session.metadata_plan
                          session.metadata_referral_code e) := by
                    unfold findEntrepriseById at hfind ⊢
                    rw [find?_map_id_preserving _
                      (fun r => by
                        by_cases hr : (r.id == e.id) = true
                        · rw [if_pos hr]; exact applySubscriptionUpdate_id _ _ _ _ _
                        · rw [if_neg hr]) db n]
                    rw [hfind]
                    simp
                  rw [hfind1]
                  dsimp only
                  unfold updateEntrepriseOnSubscription
                  rw [if_neg hfail]
                  rw [subscription_update_round_trip]

/-- A sample Stripe environment returning a fixed active subscription. -/
def sampleEnv : Env :=
  { retrieveSubscription := fun _ =>
      .ok { id := "sub_1", status := some "active",
            current_period_end := some 1700000000, customer := some "cus_1",
            metadata_entreprise_id := some "7", metadata_plan := some "monthly",
            metadata_referral_code := none, items_price_id := none },
    priceMonthly := none, priceAnnual := none, newCustomerId := "cus_9",
    dbUpdateFails := false }

/-- A sample one-company table. -/
def sampleDb : Db :=
  [{ id := 7, user_id := "u7", slug := some "acme", email := some "a@b.c",
     stripe_customer_id := none, stripe_subscription_id := none,
     subscription_status := some "incomplete", subscription_plan := none,
     subscription_period_end := none, referred_by := none }]

/-- A sample completed subscription checkout session for that company. -/
def sampleSession : CheckoutSession :=
  { mode := "subscription", subscription := some "sub_1",
    metadata_entreprise_id := some "7", metadata_plan := some "monthly",
    metadata_referral_code := none }

/-- The table after the first delivery of the sample event. -/
def sampleDbAfter : Db :=
  (handleCheckoutCompleted sampleEnv sampleDb sampleSession).toOption.getD []

/-- Witness for C3 at a concrete event: the first delivery updates the
record, the second delivery returns the same table unchanged. -/
theorem c3_checkout_redelivery_idempotent_witness :
    handleCheckoutCompleted sampleEnv sampleDbAfter sampleSession
      = .ok sampleDbAfter :=
  c3_checkout_redelivery_idempotent sampleEnv sampleDb sampleSession
    sampleDbAfter (by unfold sampleDbAfter; rfl)

/-- C4: a `checkout.session.completed` event in subscription mode whose
metadata carries no `entreprise_id` makes handleCheckoutCompleted log a
warning and return without touching any company record and without
throwing, so the webhook still acknowledges with `{received: true}`. -/
theorem c4_missing_metadata_noop (env : Env) (db : Db) (session : CheckoutSession)
    (sig : String)
    (hmode : session.mode = "subscription")
    (hmeta : session.metadata_entreprise_id = none)
    (hsig : sig ≠ "") :
    handleCheckoutCompleted env db session = .ok db ∧
    handleWebhook env db
      { signature := sig,
        constructedEvent := some (.checkoutSessionCompleted session) }
      = .ok (⟨true⟩, db) := by
  have h1 : handleCheckoutCompleted env db session = .ok db := by
    unfold handleCheckoutCompleted
    rw [hmode, hmeta]
    simp [jsTruthyStr]
  refine ⟨h1, ?_⟩
  unfold handleWebhook
  rw [if_neg (by simp [hsig])]
  simp only [dispatchEvent, h1]

/-- Witness for C4 at a concrete event with empty metadata: the table is
returned unchanged and the webhook acknowledges. -/
theorem c4_missing_metadata_noop_witness :
    handleCheckoutCompleted sampleEnv sampleDb
      { mode := "subscription", subscription := some "sub_1",
        metadata_entreprise_id := none, metadata_plan := none,
        metadata_referral_code := none }
      = .ok sampleDb ∧
    handleWebhook sampleEnv sampleDb
      { signature := "sig",
        constructedEvent := some (.checkoutSessionCompleted
          { mode := "subscription", subscription := some "sub_1",
            metadata_entreprise_id := none, metadata_plan := none,
            metadata_referral_code := none }) }
      = .ok (⟨true⟩, sampleDb) :=
  c4_missing_metadata_noop sampleEnv sampleDb
    { mode := "subscription", subscription := some "sub_1",
      metadata_entreprise_id := none, metadata_plan := none,
      metadata_referral_code := none }
    "sig" rfl rfl (by decide)

/-- C5: a company with a stored vendor customer id gets that id back with
no `customers.create` call; after a first lazy creation, the new id is
persisted onto the row, and a second call for the same company returns
the same id without creating another customer. -/
theorem c5_getOrCreateStripeCustomer (env : Env) (db : Db) (e : Entreprise) :
    (∀ cid, e.stripe_customer_id = some cid → cid ≠ "" →
      getOrCreateStripeCustomer env db e = .ok (cid, db, false)) ∧
    (∀ id1 db1 e1,
      getOrCreateStripeCustomer env db e = .ok (id1, db1, true) →
      id1 ≠ "" →
      findEntrepriseById db1 e.id = some e1 →
      getOrCreateStripeCustomer env db1 e1 = .ok (id1, db1, false)) := by
  constructor
  · intro cid hcid hne
    unfold getOrCreateStripeCustomer
    rw [hcid]
    rw [if_pos (by simp [jsTruthyStr, hne])]
    simp
  · intro id1 db1 e1 h hne hfind
    unfold getOrCreateStripeCustomer at h
    by_cases ht : jsTruthyStr e.stripe_customer_id = true
    · rw [if_pos ht] at h
      simp at h
    · rw [if_neg ht] at h
      by_cases hfail : env.dbUpdateFails = true
      · rw [if_pos hfail] at h; simp at h
      · rw [if_neg hfail] at h
        have h' := h
        simp only [Except.ok.injEq, Prod.mk.injEq] at h'
        obtain ⟨hid, hdb, -⟩ := h'
        subst hid
        subst hdb
        unfold findEntrepriseById at hfind
        rw [find?_map_id_preserving
          (fun row =>
            if row.id == e.id then
              { row with stripe_customer_id := some env.newCustomerId }
            else row)
          (fun r => by by_cases hr : (r.id == e.id) = true <;> simp [hr]) db e.id]
          at hfind
        cases hdbf : db.find? (fun r => r.id == e.id) with
        | none => rw [hdbf] at hfind; simp at hfind
        | some r =>
          rw [hdbf] at hfind
          have hrid : (r.id == e.id) = true :=
            List.find?_some (p := fun x : Entreprise => x.id == e.id) hdbf
          simp only [Option.map_some', Option.some.injEq] at hfind
          rw [if_pos hrid] at hfind
          subst hfind
          unfold getOrCreateStripeCustomer
          rw [if_pos (by simp [jsTruthyStr, hne])]
          simp

/-- Witness for C5: creating once on the sample row, then calling again on
the persisted row, returns the same customer id with no second creation. -/
theorem c5_getOrCreateStripeCustomer_witness :
    getOrCreateStripeCustomer sampleEnv
      ((getOrCreateStripeCustomer sampleEnv sampleDb
          (sampleDb.headD
            { id := 0, user_id := "", slug := none, email := none,
              stripe_customer_id := none, stripe_subscription_id := none,
              subscription_status := none, subscription_plan := none,
              subscription_period_end := none, referred_by := none })).toOption.elim
        [] (fun x => x.2.1))
      { id := 7, user_id := "u7", slug := some "acme", email := some "a@b.c",
        stripe_customer_id := some "cus_9", stripe_subscription_id := none,
        subscription_status := some "incomplete", subscription_plan := none,
        subscription_period_end := none, referred_by := none }
      = .ok ("cus_9",
        (getOrCreateStripeCustomer sampleEnv sampleDb
          (sampleDb.headD
            { id := 0, user_id := "", slug := none, email := none,
              stripe_customer_id := none, stripe_subscription_id := none,
              subscription_status := none, subscription_plan := none,
              subscription_period_end := none, referred_by := none })).toOption.elim
          [] (fun x => x.2.1),
        false) := by
  refine (c5_getOrCreateStripeCustomer sampleEnv sampleDb
    (sampleDb.headD
      { id := 0, user_id := "", slug := none, email := none,
        stripe_customer_id := none, stripe_subscription_id := none,
        subscription_status := none, subscription_plan := none,
        subscription_period_end := none, referred_by := none })).2
    "cus_9" _ _ (by rfl) (by decide) (by rfl)

/-- Characterization of membership in one item's expansion: the item must
overlap the window, and the member is the item re-dated to a window day
that is a valid occurrence outside the exceptions list. -/
theorem mem_expandItem (item : Unavailability) (f t : Int) (u : Unavailability) :
    u ∈ expandItem item f t ↔
      (¬((item.recurrence_end).getD farFuture < f ∨ item.start_date > t)) ∧
      ∃ c : Int, f ≤ c ∧ c ≤ t ∧
        validOccurrence item ((item.recurrence_end).getD farFuture) c = true ∧
        item.exceptions.contains c = false ∧
        u = { item with start_date := c } := by
  unfold expandItem
  split
  case isTrue h => simp [h]
  case isFalse h =>
    simp only [List.mem_filterMap, List.mem_range, h, not_false_iff, true_and]
    constructor
    · rintro ⟨i, hi, hf⟩
      by_cases hcond : (validOccurrence item ((item.recurrence_end).getD farFuture)
          (f + (i : Int))
          && !(item.exceptions.contains (f + (i : Int)))) = true
      · rw [if_pos hcond] at hf
        injection hf with hf
        simp only [Bool.and_eq_true, Bool.not_eq_true'] at hcond
        refine ⟨f + (i : Int), by omega, by omega, hcond.1, hcond.2, hf.symm⟩
      · rw [if_neg hcond] at hf
        exact absurd hf (by simp)
    · rintro ⟨c, hc1, hc2, hval, hexc, hu⟩
      subst hu
      refine ⟨(c - f).toNat, by omega, ?_⟩
      have hcf : f + (((c - f).toNat : ℕ) : Int) = c := by omega
      rw [hcf, if_pos (by rw [hval, hexc]; rfl)]

/-- Shifting a day by whole weeks preserves its day of week. -/
theorem dayOfWeek_add_weeks (d k : Int) : dayOfWeek (d + 7 * k) = dayOfWeek d := by
  unfold dayOfWeek
  rw [show d + 7 * k + 4 = (d + 4) + 7 * k from by ring]
  apply Int.add_mul_emod_self_left

/-- C6: expanding a weekly unavailability whose exceptions list holds the
ISO date of exactly one in-window occurrence omits that date from the
expansion while the occurrences one week before and one week after (both
inside the window and the recurrence bounds) are still present. -/
theorem c6_weekly_exception_excluded (item : Unavailability) (fromDay toDay d : Int)
    (hrec : item.recurrence_type = "weekly")
    (hexc : item.exceptions = [d])
    (hdow : dayOfWeek d = item.weekday)
    (hw1 : fromDay ≤ d - 7) (hw2 : d + 7 ≤ toDay)
    (hb1 : item.start_date ≤ d - 7)
    (hb2 : d + 7 ≤ (item.recurrence_end).getD farFuture) :
    (∀ u ∈ expandRecurrences [item] fromDay toDay, u.start_date ≠ d) ∧
    (∃ u ∈ expandRecurrences [item] fromDay toDay, u.start_date = d - 7) ∧
    (∃ u ∈ expandRecurrences [item] fromDay toDay, u.start_date = d + 7) := by
  have hsingle : expandRecurrences [item] fromDay toDay = expandItem item fromDay toDay := by
    simp [expandRecurrences]
  have hvalid : ∀ c : Int, item.start_date ≤ c →
      c ≤ (item.recurrence_end).getD farFuture → dayOfWeek c = item.weekday →
      validOccurrence item ((item.recurrence_end).getD farFuture) c = true := by
    intro c h1 h2 h3
    unfold validOccurrence
    rw [hrec]
    simp [h1, h2, h3]
  rw [hsingle]
  refine ⟨?_, ?_, ?_⟩
  · intro u hu
    rcases (mem_expandItem item fromDay toDay u).mp hu with ⟨-, c, -, -, -, hc, hue⟩
    subst hue
    rw [hexc] at hc
    simp only [ne_eq]
    intro hcd
    rw [hcd] at hc
    simp at hc
  · refine ⟨{ item with start_date := d - 7 }, ?_, rfl⟩
    refine (mem_expandItem item fromDay toDay _).mpr
      ⟨by omega, d - 7, by omega, by omega, ?_, ?_, rfl⟩
    · refine hvalid (d - 7) hb1 (by omega) ?_
      have hshift := dayOfWeek_add_weeks (d - 7) 1
      rw [show d - 7 + 7 * 1 = d from by ring] at hshift
      rw [← hshift]
      exact hdow
    · rw [hexc]
      simp
  · refine ⟨{ item with start_date := d + 7 }, ?_, rfl⟩
    refine (mem_expandItem item fromDay toDay _).mpr
      ⟨by omega, d + 7, by omega, by omega, ?_, ?_, rfl⟩
    · refine hvalid (d + 7) (by omega) hb2 ?_
      have hshift := dayOfWeek_add_weeks d 1
      rw [show d + 7 * 1 = d + 7 from by ring] at hshift
      rw [hshift]
      exact hdow
    · rw [hexc]
      simp

/-- A sample weekly unavailability: every Thursday from day 0 (1970-01-01,
a Thursday), with the occurrence on day 21 excepted. -/
def sampleWeekly : Unavailability :=
  { id := 1, entreprise_id := 7, title := "busy", start_time := "09:00",
    end_time := "10:00", recurrence_type := "weekly", start_date := 0,
    recurrence_end := none, weekday := 4, exceptions := [21] }

/-- Witness for C6 on the sample weekly item over days 0..30: day 21 is
absent from the expansion, days 14 and 28 are present. -/
theorem c6_weekly_exception_excluded_witness :
    (∀ u ∈ expandRecurrences [sampleWeekly] 0 30, u.start_date ≠ 21) ∧
    (∃ u ∈ expandRecurrences [sampleWeekly] 0 30, u.start_date = 14) ∧
    (∃ u ∈ expandRecurrences [sampleWeekly] 0 30, u.start_date = 28) :=
  c6_weekly_exception_excluded sampleWeekly 0 30 21 rfl rfl (by decide)
    (by decide) (by decide) (by decide) (by decide)

/-- C7 (amended): every slot produced by createSlot with a non-null
`mission_id` references a mission of the slot's own company (createSlot
rejects foreign missions with a 400); updateSlot performs no such check. -/
theorem c7_createSlot_mission_same_company (env : Env) (entreprise : Entreprise)
    (user : AuthUser) (body : SlotBody) (st : SlotsDb) (now : Int) (newId : Nat)
    (st' : SlotsDb) (slot : Slot) (m : Nat)
    (h : createSlot env entreprise user body st now newId = .ok (st', slot))
    (hm : slot.mission_id = some m) :
    slot.entreprise_id = entreprise.id ∧
    ∃ mission, st.missions.find? (fun x => x.id == m) = some mission ∧
      mission.entreprise_id = entreprise.id := by
  unfold createSlot at h
  by_cases h1 : (!(canAccessEntreprise (some user) entreprise)) = true
  · rw [if_pos h1] at h; simp at h
  · rw [if_neg h1] at h
    cases ha : assertActiveSubscription entreprise now with
    | error e => rw [ha] at h; simp at h
    | ok v =>
      rw [ha] at h
      dsimp only at h
      by_cases h2 : (body.start == "" || body.end_ == "") = true
      · rw [if_pos h2] at h; simp at h
      · rw [if_neg h2] at h
        cases hc : checkSlotMission st entreprise body.mission_id with
        | error e => rw [hc] at h; simp at h
        | ok missionId =>
          rw [hc] at h
          dsimp only at h
          by_cases hf : env.dbUpdateFails = true
          · rw [if_pos hf] at h; simp at h
          · rw [if_neg hf] at h
            injection h with h'
            simp only [Prod.mk.injEq] at h'
            obtain ⟨-, hslot⟩ := h'
            subst hslot
            have hm2 : missionId = some m := hm
            subst hm2
            refine ⟨rfl, ?_⟩
            unfold checkSlotMission at hc
            by_cases ht : jsTruthyNat body.mission_id = true
            · rw [if_pos ht] at hc
              cases hfind : st.missions.find?
                  (fun x => x.id == body.mission_id.getD 0) with
              | none => rw [hfind] at hc; simp at hc
              | some mission =>
                rw [hfind] at hc
                dsimp only at hc
                by_cases hbad : (!(mission.entreprise_id == entreprise.id)) = true
                · rw [if_pos hbad] at hc; simp at hc
                · rw [if_neg hbad] at hc
                  simp only [Except.ok.injEq, Option.some.injEq] at hc
                  have hkey : (mission.id == body.mission_id.getD 0) = true :=
                    List.find?_some
                      (p := fun x : Mission => x.id == body.mission_id.getD 0) hfind
                  have hkey' : mission.id = body.mission_id.getD 0 := by
                    simpa using hkey
                  refine ⟨mission, ?_, by simpa using hbad⟩
                  rw [← hc, hkey']
                  exact hfind
            · rw [if_neg ht] at hc
              simp at hc

/-- Witness for the amended C7: creating a slot tied to the company's own
mission succeeds and the invariant holds at the created slot. -/
theorem c7_createSlot_mission_same_company_witness :
    ({ id := 10, entreprise_id := 1, mission_id := some 5, start := "2025-01-01T09:00",
       end_ := "2025-01-01T10:00", title := none } : Slot).entreprise_id
      = ({ id := 1, user_id := "u1", slug := none, email := none,
           stripe_customer_id := none, stripe_subscription_id := none,
           subscription_status := some "active", subscription_plan := none,
           subscription_period_end := none, referred_by := none } : Entreprise).id ∧
    ∃ mission,
      ([{ id := 5, entreprise_id := 1, status := "validated" }] : List Mission).find?
        (fun x => x.id == 5) = some mission ∧
      mission.entreprise_id
        = ({ id := 1, user_id := "u1", slug := none, email := none,
             stripe_customer_id := none, stripe_subscription_id := none,
             subscription_status := some "active", subscription_plan := none,
             subscription_period_end := none, referred_by := none } : Entreprise).id := by
  refine c7_createSlot_mission_same_company sampleEnv
    { id := 1, user_id := "u1", slug := none, email := none,
      stripe_customer_id := none, stripe_subscription_id := none,
      subscription_status := some "active", subscription_plan := none,
      subscription_period_end := none, referred_by := none }
    { id := "u1", role := some "freelance", slug := none }
    { start := "2025-01-01T09:00", end_ := "2025-01-01T10:00", title := none,
      mission_id := some 5 }
    { missions := [{ id := 5, entreprise_id := 1, status := "validated" }],
      slots := [] }
    0 10 _ _ 5 (by rfl) (by rfl)

/-- The company, caller, update payload and tables of the C7
counterexample: mission 5 belongs to company 2, the slot to company 1. -/
def c7Entreprise : Entreprise :=
  { id := 1, user_id := "u1", slug := none, email := none,
    stripe_customer_id := none, stripe_subscription_id := none,
    subscription_status := some "active", subscription_plan := none,
    subscription_period_end := none, referred_by := none }

/-- The owner of company 1 in the C7 counterexample. -/
def c7User : AuthUser := { id := "u1", role := some "freelance", slug := none }

/-- The tables of the C7 counterexample. -/
def c7Db : SlotsDb :=
  { missions := [{ id := 5, entreprise_id := 2, status := "proposed" }],
    slots := [{ id := 10, entreprise_id := 1, mission_id := none,
                start := "2025-01-01T09:00", end_ := "2025-01-01T10:00",
                title := none }] }

/-- The update payload of the C7 counterexample: link to foreign mission 5. -/
def c7Update : SlotUpdate :=
  { start := none, end_ := none, title := none, mission_id := some (some 5) }

/-- Counterexample to C7 as stated: updateSlot lets company 1's owner link
slot 10 to mission 5 of company 2: the call succeeds and the returned slot
(entreprise_id 1) references mission 5, whose entreprise_id is 2, so the
invariant is not preserved by updateSlot. -/
theorem c7_updateSlot_counterexample :
    updateSlot sampleEnv c7Entreprise c7User 10 c7Update c7Db 0
      = .ok ({ missions := [{ id := 5, entreprise_id := 2, status := "proposed" }],
               slots := [{ id := 10, entreprise_id := 1, mission_id := some 5,
                           start := "2025-01-01T09:00", end_ := "2025-01-01T10:00",
                           title := none }] },
             { id := 10, entreprise_id := 1, mission_id := some 5,
               start := "2025-01-01T09:00", end_ := "2025-01-01T10:00",
               title := none }) ∧
    (2 : Nat) ≠ 1 := ⟨rfl, by decide⟩

/-- Every row of the keyed `missions` paid-update whose id is the key ends
up with status `paid`. -/
theorem mem_paid_map (missions : List Mission) (m : Nat) (mi : Mission)
    (hmi : mi ∈ missions.map (fun x =>
      if x.id == m then { x with status := "paid" } else x))
    (hid : mi.id = m) : mi.status = "paid" := by
  rcases List.mem_map.mp hmi with ⟨x, hx, hxe⟩
  by_cases hxm : (x.id == m) = true
  · rw [if_pos hxm] at hxe
    rw [← hxe]
  · rw [if_neg hxm] at hxe
    subst hxe
    exact absurd (by simpa using hid) hxm

/-- C8: whenever an invoice linked to a mission is set to status `paid` —
through updateFacture, or through the payment webhook's
`checkout.session.completed` facture branch — the linked mission (the
input's `mission_id` when provided, else the stored one; nonzero ids) is
updated to status `paid` as well. -/
theorem c8_paid_facture_updates_mission :
    (∀ (env : Env) (user : Option AuthUser) (entreprises : Db) (st : FacturesDb)
        (id : Nat) (input : FactureUpdateInput) (now : Int) (st' : FacturesDb)
        (facture : Facture) (m : Nat),
      st.factures.find? (fun f => f.id == id) = some facture →
      updateFacture env user entreprises st id input now = .ok st' →
      input.status = some "paid" →
      jsTruthyNat (jsNullish facture.mission_id input.mission_id) = true →
      jsNullish input.mission_id facture.mission_id = some m →
      ∀ mi ∈ st'.missions, mi.id = m → mi.status = "paid") ∧
    (∀ (st : FacturesDb) (factureId : Nat) (st' : FacturesDb) (data : Facture)
        (m : Nat),
      st.factures.find? (fun f => f.id == factureId) = some data →
      paymentsCheckoutFactureBranch st factureId = .ok st' →
      data.mission_id = some m → m ≠ 0 →
      ∀ mi ∈ st'.missions, mi.id = m → mi.status = "paid") := by
  constructor
  · intro env user entreprises st id input now st' facture m
      hfind h hstatus htruthy htarget mi hmi hid
    cases user with
    | none => simp [updateFacture] at h
    | some u =>
      unfold updateFacture at h
      rw [hfind] at h
      dsimp only at h
      cases hrole : (["freelance", "entreprise", "admin"].contains (u.role.getD "")) with
      | true =>
        rw [if_neg (by rw [hrole]; decide)] at h
        cases hent : findEntrepriseById entreprises facture.entreprise_id with
        | none => rw [hent] at h; simp at h
        | some e =>
          rw [hent] at h
          dsimp only at h
          by_cases hacc : canAccessEntreprise (some u) e = true
          · rw [if_neg (by simp [hacc])] at h
            cases hass : assertActiveSubscription e now with
            | error er => rw [hass] at h; simp at h
            | ok v =>
              rw [hass] at h
              dsimp only at h
              by_cases hfail : env.dbUpdateFails = true
              · rw [if_pos hfail] at h; simp at h
              · rw [if_neg hfail] at h
                injection h with h'
                subst h'
                dsimp only at hmi
                have hcond : (input.status == some "paid"
                    && jsTruthyNat (jsNullish facture.mission_id input.mission_id))
                    = true := by
                  rw [hstatus, htruthy]
                  rfl
                rw [if_pos hcond] at hmi
                have hget : (jsNullish input.mission_id facture.mission_id).getD 0 = m := by
                  rw [htarget]
                  rfl
                rw [hget] at hmi
                exact mem_paid_map st.missions m mi hmi hid
          · rw [if_pos (by simp [hacc])] at h; simp at h
      | false =>
        rw [if_pos (by rw [hrole]; rfl)] at h
        simp at h
  · intro st factureId st' data m hfind h hmid hm0 mi hmi hid
    unfold paymentsCheckoutFactureBranch at h
    rw [hfind] at h
    dsimp only at h
    injection h with h'
    subst h'
    dsimp only at hmi
    have htr : jsTruthyNat data.mission_id = true := by
      rw [hmid]; simp [jsTruthyNat, hm0]
    rw [if_pos htr] at hmi
    have hget : data.mission_id.getD 0 = m := by rw [hmid]; rfl
    rw [hget] at hmi
    exact mem_paid_map st.missions m mi hmi hid

/-- The caller of the C8 witness. -/
def c8User : AuthUser := { id := "u1", role := some "freelance", slug := none }

/-- The company table of the C8 witness. -/
def c8Entreprises : Db :=
  [{ id := 1, user_id := "u1", slug := none, email := none,
     stripe_customer_id := none, stripe_subscription_id := none,
     subscription_status := some "active", subscription_plan := none,
     subscription_period_end := none, referred_by := none }]

/-- The factures/missions tables of the C8 witness: facture 3 of company 1
linked to mission 9. -/
def c8Db : FacturesDb :=
  { factures := [{ id := 3, entreprise_id := 1, mission_id := some 9,
                   status := some "sent" }],
    missions := [{ id := 9, entreprise_id := 1, status := "validated" }] }

/-- The update payload of the C8 witness: set status `paid`, no relink. -/
def c8Input : FactureUpdateInput := { mission_id := none, status := some "paid" }

/-- The state after the C8 witness update. -/
def c8DbAfter : FacturesDb :=
  (updateFacture sampleEnv (some c8User) c8Entreprises c8Db 3 c8Input 0).toOption.getD
    { factures := [], missions := [] }

/-- Witness for C8: marking facture 3 paid flips mission 9 to `paid`. -/
theorem c8_paid_facture_updates_mission_witness :
    (c8DbAfter.missions.headD { id := 0, entreprise_id := 0, status := "" }).status
      = "paid" := by
  refine c8_paid_facture_updates_mission.1 sampleEnv (some c8User) c8Entreprises
    c8Db 3 c8Input 0 c8DbAfter
    { id := 3, entreprise_id := 1, mission_id := some 9, status := some "sent" }
    9 (by rfl) (by unfold c8DbAfter; rfl) rfl (by rfl) (by rfl)
    (c8DbAfter.missions.headD { id := 0, entreprise_id := 0, status := "" })
    (by decide) (by decide)

/-- C10: for a caller who is neither the company's owner nor an admin
(including anonymous callers), every slot listSlots returns either has no
`mission_id` or is joined to a mission with status `validated`, `paid` or
`completed`; rows tied to missions in any other status are filtered out
(assuming real, nonzero mission ids). -/
theorem c10_public_slots_filtered (user : Option AuthUser) (entreprise : Entreprise)
    (rows : List SlotJoinRow) (now : Int)
    (out : List (SlotJoinRow × Option String))
    (hacc : canAccessEntreprise user entreprise = false)
    (hids : ∀ s ∈ rows, s.mission_id ≠ some 0)
    (hout : listSlots user entreprise rows now = .ok out) :
    ∀ p ∈ out, p.1.mission_id = none ∨
      ∃ stx, p.1.missions = some (some stx) ∧
        stx ∈ (["validated", "paid", "completed"] : List String) := by
  unfold listSlots at hout
  rw [if_pos (by simp [hacc])] at hout
  injection hout with hout'
  subst hout'
  intro p hp
  rcases List.mem_map.mp hp with ⟨s, hs, rfl⟩
  rcases List.mem_filter.mp hs with ⟨hsrows, hsvis⟩
  unfold publicSlotVisible at hsvis
  cases hmid : s.mission_id with
  | none => exact Or.inl rfl
  | some k =>
    have hk : k ≠ 0 := by
      have hne := hids s hsrows
      rw [hmid] at hne
      simpa using hne
    rw [hmid] at hsvis
    have htr : jsTruthyNat (some k) = true := by simp [jsTruthyNat, hk]
    rw [htr] at hsvis
    simp only [Bool.not_true, Bool.false_or] at hsvis
    right
    cases hms : s.missions with
    | none =>
      unfold joinedMissionStatus at hsvis
      rw [hms] at hsvis
      simp at hsvis
    | some inner =>
      cases inner with
      | none =>
        unfold joinedMissionStatus at hsvis
        rw [hms] at hsvis
        simp at hsvis
      | some stx =>
        refine ⟨stx, rfl, ?_⟩
        unfold joinedMissionStatus at hsvis
        rw [hms] at hsvis
        simpa using hsvis

/-- The rows of the C10 witness: slot 20 joined to a `proposed` mission,
slot 21 joined to a `validated` one. -/
def c10Rows : List SlotJoinRow :=
  [{ id := 20, entreprise_id := 1, mission_id := some 5, missions := some (some "proposed") },
   { id := 21, entreprise_id := 1, mission_id := some 6, missions := some (some "validated") }]

/-- The company of the C10 witness. -/
def c10Entreprise : Entreprise :=
  { id := 1, user_id := "u1", slug := none, email := none,
    stripe_customer_id := none, stripe_subscription_id := none,
    subscription_status := some "active", subscription_plan := none,
    subscription_period_end := none, referred_by := none }

/-- The public listing of the C10 witness rows. -/
def c10Out : List (SlotJoinRow × Option String) :=
  (listSlots none c10Entreprise c10Rows 0).toOption.getD []

/-- Witness for C10: the head of the anonymous listing (the `validated`
slot; the `proposed` one is filtered out) satisfies the public filter. -/
theorem c10_public_slots_filtered_witness :
    (c10Out.headD
      ({ id := 0, entreprise_id := 0, mission_id := none, missions := none }, none)).1.mission_id
        = none ∨
    ∃ stx,
      (c10Out.headD
        ({ id := 0, entreprise_id := 0, mission_id := none, missions := none }, none)).1.missions
          = some (some stx) ∧
      stx ∈ (["validated", "paid", "completed"] : List String) := by
  refine c10_public_slots_filtered none c10Entreprise c10Rows 0 c10Out rfl
    (by decide) (by unfold c10Out; rfl) _ (by decide)

end ExtraBeam
